import Mathlib

set_option maxRecDepth 10000

/-!
Shallow embedding of `src/main.rs`, a Polygon (POL) token netflow monitor:
it subscribes to ERC-20 Transfer logs, classifies each transfer against a
set of Binance addresses, and appends rows to two SQLite tables
(`transactions` and `netflows`).  Machine integers are modelled as `Nat`
and `Int` with explicit bounds where the Rust code narrows; Rust panics
(out-of-bounds indexing, `as_u128` overflow, `unwrap`) and fallible
`rusqlite` calls are modelled with `Except RunError`.
-/

/-- Configuration record `Polygon { rpc_url }` (src/main.rs:20). -/
structure Polygon where
  rpc_url : String

/-- Configuration record `Token { pol_address }` (src/main.rs:22). -/
structure Token where
  pol_address : String

/-- Configuration record `Exchanges { binance: Vec<String> }` (src/main.rs:24);
the schema admits exactly one exchange label, `binance`. -/
structure Exchanges where
  binance : List String

/-- Configuration record `Config` (src/main.rs:12-17). -/
structure Config where
  polygon : Polygon
  token : Token
  exchanges : Exchanges

/-- Row of the `transactions` table (src/main.rs:37-45).  The autoincrement
id and timestamp are represented by list position / omitted. -/
structure TxRow where
  block_number : Int
  tx_hash : String
  from_address : String
  to_address : String
  amount : String
deriving DecidableEq

/-- Row of the `netflows` table (src/main.rs:46-53).  The autoincrement id
is represented by list position (later rows have greater ids). -/
structure NetflowRow where
  exchange : String
  inflow : String
  outflow : String
  cumulative_netflow : String
deriving DecidableEq

/-- The SQLite database `netflow.db`: the two tables, rows in insertion
(autoincrement id) order. -/
structure Db where
  transactions : List TxRow
  netflows : List NetflowRow
deriving DecidableEq

/-- A raw chain log: 32-byte topics and a data payload, each modelled as a
list of bytes (`Nat` values below 256). -/
structure RawLog where
  topics : List (List Nat)
  data : List Nat

/-- Runtime outcomes other than normal return: Rust panics (slice indexing,
`U256::from_big_endian` on an over-long slice, `U256::as_u128` overflow,
`Option::unwrap` / `Result::unwrap`, `parse` failure) and a failed
`rusqlite` execute (`StoreError`). -/
inductive RunError where
  | topicIndexPanic
  | bigEndianLenPanic
  | u128CastPanic
  | unwrapNonePanic
  | parsePanic
  | storeError
deriving DecidableEq

/-- Lower-case hex digit for a value below 16, as emitted by `hex::encode`. -/
def hexDigitChar (n : Nat) : Char :=
  if n < 10 then Char.ofNat (48 + n) else Char.ofNat (87 + n)

/-- Two lower-case hex digits of one byte, as emitted by `hex::encode`. -/
def hexEncodeByte (b : Nat) : List Char :=
  [hexDigitChar (b / 16 % 16), hexDigitChar (b % 16)]

/-- `hex::encode` of a byte slice: lower-case hex, two digits per byte. -/
def hexEncode (bs : List Nat) : String :=
  String.mk ((bs.map hexEncodeByte).flatten)

/-- Address string extracted from a 32-byte topic, dropping the 12 padding
bytes: `format!("0x{}", hex::encode(&topic.as_bytes()[12..]))`
(src/main.rs:152-153). -/
def topic_address (topic : List Nat) : String :=
  "0x" ++ hexEncode (topic.drop 12)

/-- `U256::from_big_endian` on the data payload (src/main.rs:154): the
bytes read big-endian.  The Rust call panics when the slice is longer than
32 bytes; that length check is made at the call site in
`handle_transfer_log`. -/
def from_big_endian (bs : List Nat) : Nat :=
  bs.foldl (fun acc b => acc * 256 + b) 0

/-- The composite narrowing `amount.as_u128() as i128` applied after the
`as_u128` bound check: reinterpret a value below 2^128 as a signed
two's-complement 128-bit integer. -/
def as_i128_of_u128 (n : Nat) : Int :=
  if n < 2 ^ 127 then (n : Int) else (n : Int) - 2 ^ 128

/-- Registry construction (src/main.rs:57): the configured Binance address
strings are collected verbatim into a set — membership is the same as list
membership on the raw strings; no lower-casing, no hex validation. -/
def build_registry (exchanges : Exchanges) : List String :=
  exchanges.binance

/-- The classification branch of `handle_transfer_log` (src/main.rs:156-165):
`inflow` and `outflow` start at 0; if the registry holds `to` the inflow is
set to `amount.as_u128() as i128` (panicking when the amount does not fit in
a `u128`), else if it holds `from` the outflow is set the same way, else both
stay 0. -/
def classify_flow (binance : List String) (from_s to_s : String) (amount : Nat) :
    Except RunError (Int × Int) :=
  if binance.contains to_s then
    if amount < 2 ^ 128 then .ok (as_i128_of_u128 amount, 0)
    else .error .u128CastPanic
  else if binance.contains from_s then
    if amount < 2 ^ 128 then .ok (0, as_i128_of_u128 amount)
    else .error .u128CastPanic
  else .ok (0, 0)

/-- `handle_transfer_log` (src/main.rs:147-177): extract `from` and `to`
from `topics[1]` and `topics[2]` (panicking when fewer topics are present),
decode the amount from the data payload, classify, and when either flow
component is non-zero insert one `netflows` row with the hard-coded
exchange label and `cumulative_netflow = inflow - outflow`.  `storeOk`
models whether the `conn.execute` insert succeeds; on failure the `?`
operator returns the store error. -/
def handle_transfer_log (db : Db) (lg : RawLog) (binance : List String)
    (storeOk : Bool) : Except RunError Db :=
  match lg.topics.get? 1, lg.topics.get? 2 with
  | some t1, some t2 =>
    let from_s := topic_address t1
    let to_s := topic_address t2
    if lg.data.length ≤ 32 then
      let amount := from_big_endian lg.data
      match classify_flow binance from_s to_s amount with
      | .error e => .error e
      | .ok (inflow, outflow) =>
        if inflow ≠ 0 ∨ outflow ≠ 0 then
          if storeOk then
            .ok { db with
                  netflows := db.netflows ++
                    [{ exchange := "binance",
                       inflow := toString inflow,
                       outflow := toString outflow,
                       cumulative_netflow := toString (inflow - outflow) }] }
          else .error .storeError
        else .ok db
    else .error .bigEndianLenPanic
  | _, _ => .error .topicIndexPanic

/-- The subscription loop of `listen_transfers` (src/main.rs:139-141): logs
are handled strictly in order and any error from `handle_transfer_log` is
propagated out of the loop by `?`, ending processing.  Each log is paired
with the `storeOk` outcome of its database insert. -/
def listen_transfers (db : Db) (logs : List (RawLog × Bool))
    (binance : List String) : Except RunError Db :=
  match logs with
  | [] => .ok db
  | (lg, ok) :: rest =>
    match handle_transfer_log db lg binance ok with
    | .error e => .error e
    | .ok db1 => listen_transfers db1 rest binance

/-- Digit accumulation for `i128::from_str`: all characters must be ASCII
digits. -/
def parse_nat_digits : List Char → Nat → Option Nat
  | [], acc => some acc
  | c :: cs, acc =>
    if c.isDigit then parse_nat_digits cs (acc * 10 + (c.toNat - 48))
    else none

/-- `str::parse::<i128>` (src/main.rs:108): optional sign, at least one
digit, all digits, and the value must fit in a signed 128-bit integer. -/
def parse_i128 (s : String) : Option Int :=
  match s.data with
  | [] => none
  | '+' :: cs =>
    match cs with
    | [] => none
    | _ =>
      match parse_nat_digits cs 0 with
      | some n => if n ≤ 2 ^ 127 - 1 then some (n : Int) else none
      | none => none
  | '-' :: cs =>
    match cs with
    | [] => none
    | _ =>
      match parse_nat_digits cs 0 with
      | some n => if n ≤ 2 ^ 127 then some (-(n : Int)) else none
      | none => none
  | cs =>
    match parse_nat_digits cs 0 with
    | some n => if n ≤ 2 ^ 127 - 1 then some (n : Int) else none
    | none => none

/-- `simulate_flow` (src/main.rs:101-114): unconditionally insert one
`transactions` row with the fixed demo fields and amount = inflow, parse
the two decimal strings as `i128` (unwrap panics on failure), and insert
one `netflows` row with `cumulative_netflow = inflow - outflow`. -/
def simulate_flow (db : Db) (exchange inflow outflow : String) :
    Except RunError Db :=
  let db1 : Db :=
    { db with
      transactions := db.transactions ++
        [{ block_number := 123456,
           tx_hash := "0xtesthash",
           from_address := "0xfrom",
           to_address := "0xto",
           amount := inflow }] }
  match parse_i128 inflow, parse_i128 outflow with
  | some i, some o =>
    .ok { db1 with
          netflows := db1.netflows ++
            [{ exchange := exchange,
               inflow := inflow,
               outflow := outflow,
               cumulative_netflow := toString (i - o) }] }
  | _, _ => .error .parsePanic

/-- The HTTP query route (src/main.rs:76-94): `SELECT ... FROM netflows
ORDER BY id DESC LIMIT 1` followed by `query_row(...).unwrap()` — the last
inserted row of the whole table, with no filter on the exchange label, and
a panic when the table is empty. -/
def netflow_route (db : Db) : Except RunError NetflowRow :=
  match db.netflows.getLast? with
  | some r => .ok r
  | none => .error .unwrapNonePanic

/-- A 32-byte event-signature topic (contents irrelevant to the handler). -/
def demoTopicSig : List Nat := List.replicate 32 0

/-- A 32-byte topic whose address part is 20 bytes of 0xbb. -/
def demoTopicFrom : List Nat := List.replicate 12 0 ++ List.replicate 20 187

/-- A 32-byte topic whose address part is 20 bytes of 0xaa. -/
def demoTopicTo : List Nat := List.replicate 12 0 ++ List.replicate 20 170

/-- The lower-case address string the handler extracts from
`demoTopicTo`. -/
def demoAddrTo : String := topic_address demoTopicTo

/-- A registry configured with the single (lower-case) address
`demoAddrTo`. -/
def demoReg : List String := build_registry ⟨[demoAddrTo]⟩

/-- A transfer of 1000 tokens to the monitored address. -/
def demoLog1000 : RawLog :=
  { topics := [demoTopicSig, demoTopicFrom, demoTopicTo], data := [3, 232] }

/-- A transfer of 500 tokens to the monitored address. -/
def demoLog500 : RawLog :=
  { topics := [demoTopicSig, demoTopicFrom, demoTopicTo], data := [1, 244] }

/-- A transfer of 2^127 tokens to the monitored address (16-byte big-endian
payload 0x80 00 ... 00). -/
def demoLogBig : RawLog :=
  { topics := [demoTopicSig, demoTopicFrom, demoTopicTo],
    data := 128 :: List.replicate 15 0 }

/-- A malformed log carrying only the event-signature topic. -/
def demoShortLog : RawLog :=
  { topics := [demoTopicSig], data := [3, 232] }

/-- The netflows row the handler writes for `demoLog1000`. -/
def row1000 : NetflowRow :=
  { exchange := "binance", inflow := "1000", outflow := "0",
    cumulative_netflow := "1000" }

/-- The netflows row the handler writes for `demoLog500`. -/
def row500 : NetflowRow :=
  { exchange := "binance", inflow := "500", outflow := "0",
    cumulative_netflow := "500" }

example : demoAddrTo = "0xaaaaaaaaaaaaaaaaaaaaaaaaaaaaaaaaaaaaaaaa" := by decide

example : from_big_endian demoLogBig.data = 2 ^ 127 := by decide

example :
    handle_transfer_log ⟨[], []⟩ demoLog1000 demoReg true =
      .ok ⟨[], [row1000]⟩ := by rfl

/-- An upper-case spelling of the monitored demo address, as an operator
might configure it. -/
def demoAddrToUpper : String := "0xAAAAAAAAAAAAAAAAAAAAAAAAAAAAAAAAAAAAAAAA"

/-- Claim C1 — the code stores only the per-event delta in
`cumulative_netflow`: after two monitored inflows of 1000 and 500 tokens
the second snapshot row carries cumulative netflow "500", not the running
sum "1500" the claim requires. -/
theorem cumulative_netflow_is_per_event_delta :
    listen_transfers ⟨[], []⟩ [(demoLog1000, true), (demoLog500, true)] demoReg =
      .ok ⟨[], [row1000, row500]⟩ ∧
    row500.cumulative_netflow = "500" ∧ ("500" : String) ≠ "1500" :=
  ⟨by rfl, by rfl, by decide⟩

/-- Claim C2 — the amount is narrowed through `as_u128() as i128`: a
transfer of 2^127 tokens to a monitored address is persisted with inflow
"-170141183460469231731687303715884105728" (the two's-complement
reinterpretation), not the decoded amount. -/
theorem inflow_wraps_negative_at_two_pow_127 :
    from_big_endian demoLogBig.data = 2 ^ 127 ∧
    handle_transfer_log ⟨[], []⟩ demoLogBig demoReg true =
      .ok ⟨[], [{ exchange := "binance",
                  inflow := "-170141183460469231731687303715884105728",
                  outflow := "0",
                  cumulative_netflow :=
                    "-170141183460469231731687303715884105728" }]⟩ ∧
    ("-170141183460469231731687303715884105728" : String) ≠
      "170141183460469231731687303715884105728" :=
  ⟨by decide, by rfl, by decide⟩

/-- Claim C3, counterexample — at amount 2^127 with `to` monitored, the
classified inflow is the negative value -2^127, not the event amount. -/
theorem classify_large_amount_inflow_ne_amount :
    classify_flow demoReg (topic_address demoTopicFrom) demoAddrTo (2 ^ 127) =
      .ok (-(2 ^ 127 : Int), 0) ∧
    (-(2 ^ 127 : Int)) ≠ ((2 ^ 127 : Nat) : Int) :=
  ⟨by rfl, by decide⟩

/-- Claim C3, amended — for amounts below 2^127 (where the i128 narrowing
is lossless) the classification is exactly as claimed: `to` membership
gives inflow = amount and outflow = 0 and takes precedence over `from`
membership, which gives outflow = amount and inflow = 0; otherwise both
components are zero. -/
theorem classify_flow_exact_below_two_pow_127 (reg : List String)
    (from_s to_s : String) (amount : Nat) (h : amount < 2 ^ 127) :
    classify_flow reg from_s to_s amount =
      .ok (if reg.contains to_s then ((amount : Int), 0)
           else if reg.contains from_s then ((0 : Int), (amount : Int))
           else (0, 0)) := by
  have h128 : amount < 340282366920938463463374607431768211456 :=
    lt_trans h (by norm_num)
  have hcast : as_i128_of_u128 amount = (amount : Int) := by
    unfold as_i128_of_u128
    rw [if_pos h]
  by_cases hto : to_s ∈ reg
  · simp [classify_flow, hto, h128, hcast]
  · by_cases hfr : from_s ∈ reg
    · simp [classify_flow, hto, hfr, h128, hcast]
    · simp [classify_flow, hto, hfr, hcast]

/-- Claim C3, witness — concrete run of the amended theorem at amount
1000 with the demo registry. -/
theorem classify_flow_exact_witness :
    classify_flow demoReg (topic_address demoTopicFrom) demoAddrTo 1000 =
      .ok ((1000 : Int), 0) := by
  have h := classify_flow_exact_below_two_pow_127 demoReg
    (topic_address demoTopicFrom) demoAddrTo 1000 (by norm_num)
  rw [h]
  rfl

/-- Claim C4 — the live transfer handler never writes a `transactions`
(TransferRecord) row: any successful run leaves the ledger table exactly
as it was, so the claimed atomic pair of inserts does not exist. -/
theorem handle_transfer_log_preserves_transactions (db : Db) (lg : RawLog)
    (reg : List String) (ok : Bool) (db1 : Db)
    (h : handle_transfer_log db lg reg ok = .ok db1) :
    db1.transactions = db.transactions := by
  unfold handle_transfer_log at h
  split at h
  · simp only at h
    split at h
    · split at h
      · exact Except.noConfusion h
      · split at h
        · split at h
          · obtain rfl := Except.ok.inj h
            rfl
          · exact Except.noConfusion h
        · obtain rfl := Except.ok.inj h
          rfl
    · exact Except.noConfusion h
  · exact Except.noConfusion h

/-- Claim C4, witness — concrete monitored transfer: the handler inserts a
netflow row while the transactions table stays empty. -/
theorem handle_transfer_log_preserves_transactions_witness :
    (Db.mk [] [row1000]).transactions = (Db.mk [] []).transactions :=
  handle_transfer_log_preserves_transactions ⟨[], []⟩ demoLog1000 demoReg
    true ⟨[], [row1000]⟩ (by rfl)

/-- Claim C5 — a log with a single topic makes the handler fail with the
out-of-bounds topic-index panic (not a recoverable DecodeError), and the
subscriber loop stops there: the following well-formed log is never
processed. -/
theorem short_topics_log_panics :
    demoShortLog.topics.length = 1 ∧
    handle_transfer_log ⟨[], []⟩ demoShortLog demoReg true =
      .error .topicIndexPanic ∧
    listen_transfers ⟨[], []⟩ [(demoShortLog, true), (demoLog1000, true)]
      demoReg = .error .topicIndexPanic :=
  ⟨by rfl, by rfl, by rfl⟩

/-- Claim C6 — registry membership is raw string equality: an address
configured in upper case is never matched against the lower-case hex the
handler extracts, so a transfer to the (intended) monitored address writes
nothing; and a malformed entry is accepted verbatim instead of failing
construction. -/
theorem registry_membership_case_sensitive :
    demoAddrToUpper.data.map Char.toLower = demoAddrTo.data ∧
    (build_registry ⟨[demoAddrToUpper]⟩).contains demoAddrTo = false ∧
    handle_transfer_log ⟨[], []⟩ demoLog1000
      (build_registry ⟨[demoAddrToUpper]⟩) true = .ok ⟨[], []⟩ ∧
    build_registry ⟨["not-forty-hex"]⟩ = ["not-forty-hex"] :=
  ⟨by decide, by rfl, by rfl, by rfl⟩

/-- Claim C7 — the query route panics (unwrap on an empty result) when no
snapshot row exists, instead of returning a distinct not-found response,
and it returns the globally last row with no filtering by exchange
label. -/
theorem netflow_route_panics_on_empty :
    netflow_route ⟨[], []⟩ = .error .unwrapNonePanic ∧
    netflow_route ⟨[], [row1000, row500]⟩ = .ok row500 :=
  ⟨by rfl, by rfl⟩

/-- Claim C8 — a failed store write is not handled inside the subscriber
loop: the `?` operator propagates it, ending processing, so a later log
that would have produced a row is never handled. -/
theorem store_error_aborts_subscriber_loop :
    handle_transfer_log ⟨[], []⟩ demoLog1000 demoReg false =
      .error .storeError ∧
    listen_transfers ⟨[], []⟩ [(demoLog1000, false), (demoLog500, true)]
      demoReg = .error .storeError ∧
    listen_transfers ⟨[], []⟩ [(demoLog500, true)] demoReg =
      .ok ⟨[], [row500]⟩ :=
  ⟨by rfl, by rfl, by rfl⟩

/-- Claim C9 — every netflow row the live handler adds carries the
hard-coded exchange label "binance": after any successful run, each row of
the resulting table was either already present or has exchange
"binance". -/
theorem snapshot_exchange_always_binance (db : Db) (lg : RawLog)
    (reg : List String) (ok : Bool) (db1 : Db)
    (h : handle_transfer_log db lg reg ok = .ok db1) :
    ∀ r ∈ db1.netflows, r ∈ db.netflows ∨ r.exchange = "binance" := by
  unfold handle_transfer_log at h
  split at h
  · simp only at h
    split at h
    · split at h
      · exact Except.noConfusion h
      · split at h
        · split at h
          · obtain rfl := Except.ok.inj h
            intro r hr
            simp only [List.mem_append, List.mem_singleton] at hr
            rcases hr with hr | hr
            · exact Or.inl hr
            · subst hr
              exact Or.inr rfl
          · exact Except.noConfusion h
        · obtain rfl := Except.ok.inj h
          intro r hr
          exact Or.inl hr
    · exact Except.noConfusion h
  · exact Except.noConfusion h

/-- Claim C9, witness — the row written for the concrete demo transfer has
exchange "binance". -/
theorem snapshot_exchange_always_binance_witness :
    row1000 ∈ (Db.mk [] []).netflows ∨ row1000.exchange = "binance" :=
  snapshot_exchange_always_binance ⟨[], []⟩ demoLog1000 demoReg true
    ⟨[], [row1000]⟩ (by rfl) row1000 (List.mem_singleton.mpr rfl)

/-- Claim C10 — at startup `main` calls `simulate_flow` with "binance",
"1000", "200": for any prior database state this appends exactly one demo
transactions row and one netflows row with inflow "1000", outflow "200"
and cumulative netflow "800". -/
theorem simulate_flow_inserts_demo_rows (db : Db) :
    simulate_flow db ("binance") ("1000") ("200") =
      .ok { transactions := db.transactions ++
              [{ block_number := 123456, tx_hash := "0xtesthash",
                 from_address := "0xfrom", to_address := "0xto",
                 amount := "1000" }],
            netflows := db.netflows ++
              [{ exchange := "binance", inflow := "1000", outflow := "200",
                 cumulative_netflow := "800" }] } := by
  rfl
